import Mathlib

/-!
Verification development for `mdview` (src/main.rs): a local markdown
previewer that watches one markdown file, re-renders it to `output.html`
plus a `status.json` timestamp record, and serves both over HTTP.

The embedding below translates the program's own logic.  Third-party
library behaviour is modelled at its interface:
* `comrak::markdown_to_html` is a pure function of the source text (the
  `Options` argument is always `Options::default()`), so it is passed in
  as an arbitrary function `md2html : String → String`;
* filesystem outcomes (`fs::read_to_string`, `fs::write`) are inputs to
  the model (`readResult`, `statusWriteOk`, `outputWriteOk`), and the two
  `chrono::Local::now()` calls are inputs `timestampMillis` and `timeStr`;
* `serde_json::from_str` / `serde_json::Value` are modelled by the `Json`
  type and `Json.parse` below (standard JSON grammar; number values are
  kept as their validated lexeme, since no claim distinguishes serde's
  i64/u64/f64 representations; surrogate-pair `\u` escapes are elided);
* `notify::EventKind` is modelled with its top-level constructors and one
  level of sub-kind (deeper payloads such as `DataChange` are unused by
  the program's `match`, which only distinguishes `Modify(_) | Create(_)`).
-/

namespace MdView

/-- serde_json::Value. Objects are kept as key-sorted association lists,
mirroring serde's default `BTreeMap` (duplicate keys: last value wins). -/
inductive Json where
  | null
  | bool (b : Bool)
  | num (lexeme : String)
  | str (s : String)
  | arr (elems : List Json)
  | obj (fields : List (String × Json))

def quoteChar : Char := Char.ofNat 34

def backslashChar : Char := Char.ofNat 92

def lbrace : Char := Char.ofNat 123

def rbrace : Char := Char.ofNat 125

def isJsonWs (c : Char) : Bool :=
  c = ' ' || c = '\n' || c = '\r' || c = '\t'

def skipWs : List Char → List Char
  | [] => []
  | c :: cs => if isJsonWs c then skipWs cs else c :: cs

def isDigitChar (c : Char) : Bool :=
  '0' ≤ c && c ≤ '9'

def hexVal (c : Char) : Option Nat :=
  if '0' ≤ c && c ≤ '9' then some (c.toNat - 48)
  else if 'a' ≤ c && c ≤ 'f' then some (c.toNat - 87)
  else if 'A' ≤ c && c ≤ 'F' then some (c.toNat - 55)
  else none

/-- Decode the body of a JSON string literal (after the opening quote),
returning the decoded characters and the input after the closing quote.
Escapes as accepted by serde_json; unescaped control characters and lone
surrogate escapes are rejected. -/
def parseStringBody : Nat → List Char → Option (List Char × List Char)
  | 0, _ => none
  | _, [] => none
  | fuel + 1, c :: cs =>
    if c = quoteChar then some ([], cs)
    else if c = backslashChar then
      match cs with
      | [] => none
      | e :: cs2 =>
        let dec : Option (Char × List Char) :=
          if e = quoteChar then some (quoteChar, cs2)
          else if e = backslashChar then some (backslashChar, cs2)
          else if e = '/' then some ('/', cs2)
          else if e = 'b' then some (Char.ofNat 8, cs2)
          else if e = 'f' then some (Char.ofNat 12, cs2)
          else if e = 'n' then some (Char.ofNat 10, cs2)
          else if e = 'r' then some (Char.ofNat 13, cs2)
          else if e = 't' then some (Char.ofNat 9, cs2)
          else if e = 'u' then
            match cs2 with
            | h1 :: h2 :: h3 :: h4 :: cs3 =>
              match hexVal h1, hexVal h2, hexVal h3, hexVal h4 with
              | some a, some b, some c3, some d =>
                let n := ((a * 16 + b) * 16 + c3) * 16 + d
                if 55296 ≤ n && n ≤ 57343 then none
                else some (Char.ofNat n, cs3)
              | _, _, _, _ => none
            | _ => none
          else none
        match dec with
        | some (ch, rest) =>
          match parseStringBody fuel rest with
          | some (s, rest2) => some (ch :: s, rest2)
          | none => none
        | none => none
    else if c.toNat < 32 then none
    else
      match parseStringBody fuel cs with
      | some (s, rest) => some (c :: s, rest)
      | none => none

def takeDigits : List Char → List Char × List Char
  | [] => ([], [])
  | c :: cs =>
    if isDigitChar c then
      let (ds, rest) := takeDigits cs
      (c :: ds, rest)
    else ([], c :: cs)

/-- Optional exponent part of a JSON number (after int and fraction). -/
def continueExp (acc : List Char) (cs : List Char) : Option (String × List Char) :=
  match cs with
  | c :: rest =>
    if c = 'e' || c = 'E' then
      let (sgn, rest2) :=
        match rest with
        | s :: r2 => if s = '+' || s = '-' then ([s], r2) else (([] : List Char), rest)
        | [] => ([], [])
      match takeDigits rest2 with
      | ([], _) => none
      | (ds, rest3) => some (String.mk (acc ++ c :: (sgn ++ ds)), rest3)
    else some (String.mk acc, cs)
  | [] => some (String.mk acc, [])

/-- Optional fraction part of a JSON number (after the integer part). -/
def continueFrac (acc : List Char) (cs : List Char) : Option (String × List Char) :=
  match cs with
  | c :: rest =>
    if c = '.' then
      match takeDigits rest with
      | ([], _) => none
      | (ds, rest2) => continueExp (acc ++ c :: ds) rest2
    else continueExp acc cs
  | [] => continueExp acc []

/-- JSON number grammar: `-?(0|[1-9][0-9]*)(.[0-9]+)?([eE][+-]?[0-9]+)?`,
returned as its lexeme. Leading zeros are rejected, as in serde_json. -/
def parseNumber (cs : List Char) : Option (String × List Char) :=
  let (neg, cs1) :=
    match cs with
    | c :: rest => if c = '-' then ([c], rest) else (([] : List Char), cs)
    | [] => ([], [])
  match cs1 with
  | [] => none
  | c :: rest =>
    if c = '0' then continueFrac (neg ++ [c]) rest
    else if isDigitChar c then
      let (ds, rest2) := takeDigits rest
      continueFrac (neg ++ c :: ds) rest2
    else none

/-- Lexicographic order on strings by code point, which agrees with the
byte-wise UTF-8 order Rust's `BTreeMap<String, _>` uses. -/
def charListLt : List Char → List Char → Bool
  | [], [] => false
  | [], _ :: _ => true
  | _ :: _, [] => false
  | a :: as, b :: bs =>
    if a.toNat < b.toNat then true
    else if b.toNat < a.toNat then false
    else charListLt as bs

def strLtB (a b : String) : Bool := charListLt a.data b.data

/-- Insert into a key-sorted association list, replacing an existing key:
serde_json's default `BTreeMap<String, Value>` insertion. -/
def insertField (k : String) (v : Json) : List (String × Json) → List (String × Json)
  | [] => [(k, v)]
  | (k2, v2) :: rest =>
    if k = k2 then (k, v) :: rest
    else if strLtB k k2 then (k, v) :: (k2, v2) :: rest
    else (k2, v2) :: insertField k v rest

mutual

/-- Parse one JSON value (fuel-bounded recursion; the fuel supplied by
`Json.parse` is ample for any input, and serde_json itself enforces a
recursion depth limit). -/
def parseValue : Nat → List Char → Option (Json × List Char)
  | 0, _ => none
  | fuel + 1, cs =>
    match skipWs cs with
    | 'n' :: 'u' :: 'l' :: 'l' :: rest => some (Json.null, rest)
    | 't' :: 'r' :: 'u' :: 'e' :: rest => some (Json.bool true, rest)
    | 'f' :: 'a' :: 'l' :: 's' :: 'e' :: rest => some (Json.bool false, rest)
    | c :: rest =>
      if c = quoteChar then
        match parseStringBody (rest.length + 1) rest with
        | some (s, rest2) => some (Json.str (String.mk s), rest2)
        | none => none
      else if c = '-' || isDigitChar c then
        match parseNumber (c :: rest) with
        | some (lex, rest2) => some (Json.num lex, rest2)
        | none => none
      else if c = '[' then
        match skipWs rest with
        | ']' :: rest2 => some (Json.arr [], rest2)
        | rest2 =>
          match parseElems fuel rest2 with
          | some (vs, rest3) => some (Json.arr vs, rest3)
          | none => none
      else if c = lbrace then
        match skipWs rest with
        | c2 :: rest2 =>
          if c2 = rbrace then some (Json.obj [], rest2)
          else
            match parseMembers fuel (c2 :: rest2) with
            | some (kvs, rest3) =>
              some (Json.obj (kvs.foldl (fun m kv => insertField kv.1 kv.2 m) []), rest3)
            | none => none
        | [] => none
      else none
    | [] => none

/-- Parse `value (, value)* ]` — array elements after the opening bracket
of a non-empty array. -/
def parseElems : Nat → List Char → Option (List Json × List Char)
  | 0, _ => none
  | fuel + 1, cs =>
    match parseValue fuel cs with
    | none => none
    | some (v, rest) =>
      match skipWs rest with
      | ',' :: rest2 =>
        match parseElems fuel rest2 with
        | some (vs, rest3) => some (v :: vs, rest3)
        | none => none
      | ']' :: rest2 => some ([v], rest2)
      | _ => none

/-- Parse `string : value (, string : value)* rbrace` — object members of
a non-empty object. -/
def parseMembers : Nat → List Char → Option (List (String × Json) × List Char)
  | 0, _ => none
  | fuel + 1, cs =>
    match skipWs cs with
    | c :: rest =>
      if c = quoteChar then
        match parseStringBody (rest.length + 1) rest with
        | some (k, rest2) =>
          match skipWs rest2 with
          | ':' :: rest3 =>
            match parseValue fuel rest3 with
            | some (v, rest4) =>
              match skipWs rest4 with
              | c5 :: rest5 =>
                if c5 = ',' then
                  match parseMembers fuel rest5 with
                  | some (kvs, rest6) => some ((String.mk k, v) :: kvs, rest6)
                  | none => none
                else if c5 = rbrace then some ([(String.mk k, v)], rest5)
                else none
              | [] => none
            | none => none
          | _ => none
        | none => none
      else none
    | [] => none

end

/-- serde_json::from_str: one JSON value, with only whitespace allowed
after it. -/
def Json.parse (s : String) : Option Json :=
  match parseValue (2 * s.data.length + 2) s.data with
  | some (v, rest) => if skipWs rest = [] then some v else none
  | none => none

/-! ## Serving Loop (`serve_html`, `serve_status`, the axum router) -/

/-- Response of the `serve_html` handler. `axum::response::Html` responds
with status 200 and the content-type header shown; the program installs no
middleware, so these are the only application-controlled headers. -/
structure HtmlResponse where
  status : Nat
  headers : List (String × String)
  body : String

/-- Response of the `serve_status` handler (`axum::response::Json`). -/
structure JsonResponse where
  status : Nat
  headers : List (String × String)
  body : Json

def htmlHeaders : List (String × String) :=
  [("content-type", "text/html; charset=utf-8")]

def jsonHeaders : List (String × String) :=
  [("content-type", "application/json")]

/-- `serve_html`: read `OUTPUT_FILE` fresh from disk (the read outcome is
the `Option String` argument) and fall back to a placeholder body on a
read error. -/
def serve_html (readOutput : Option String) : HtmlResponse :=
  let content := readOutput.getD "Error loading file"
  { status := 200, headers := htmlHeaders, body := content }

/-- serde_json's `json!({"timestamp": 0})` fallback value. -/
def zeroTimestamp : Json := Json.obj [("timestamp", Json.num "0")]

/-- `serve_status`: read `STATUS_FILE` fresh from disk, substituting the
literal `{"timestamp":0}` text on a read error, then parse it, falling
back to the `json!` zero record if parsing fails. -/
def serve_status (readStatus : Option String) : JsonResponse :=
  let content := readStatus.getD "\x7b\"timestamp\":0\x7d"
  let json := (Json.parse content).getD zeroTimestamp
  { status := 200, headers := jsonHeaders, body := json }

/-- The two handlers the router dispatches to. -/
inductive Handler where
  | htmlH
  | statusH
deriving DecidableEq

/-- The axum router: `GET /`, `GET /output.html` (both `serve_html`) and
`GET /status.json` (`serve_status`). No layer (in particular no CORS
layer) is installed. -/
def router : List (String × Handler) :=
  [("/", Handler.htmlH), ("/output.html", Handler.htmlH), ("/status.json", Handler.statusH)]

/-- Application-set response headers of each handler. -/
def routeHeaders : Handler → List (String × String)
  | Handler.htmlH => htmlHeaders
  | Handler.statusH => jsonHeaders

/-- A response permits cross-origin browser access when it carries an
`Access-Control-Allow-Origin` header (axum normalizes header names to
lowercase). -/
def allowsCrossOrigin (headers : List (String × String)) : Bool :=
  (headers.lookup "access-control-allow-origin").isSome

/-! ## Renderer (`render_markdown`)

The five literal segments of the page template are the parts of the
`format!` raw string around its `{title}`, `{filename}`, `{html}` and
`{time_str}` placeholders (braces and apostrophes appear as `\x7b`,
`\x7d`, `\x27` escapes). -/

def tmplA : String :=
  "<!DOCTYPE html>\n<html lang=\"en\">\n<head>\n    <meta charset=\"utf-8\">\n    <meta name=\"viewport\" content=\"width=device-width, initial-scale=1.0\">\n    <title>"

def tmplB : String :=
  "</title>\n    <script src=\"https://cdn.tailwindcss.com\"></script>\n    <style>\n        @import url(\x27https://fonts.googleapis.com/css2?family=Inter:wght@300;400;500;600;700&family=JetBrains+Mono:wght@400;500&display=swap\x27);\n        \n        body \x7b\n            font-family: \x27Inter\x27, -apple-system, BlinkMacSystemFont, \x27Segoe UI\x27, Roboto, sans-serif;\n        \x7d\n        \n        /* Prose styling for markdown content */\n        .prose \x7b\n            color: #1f2937;\n            max-width: 65ch;\n        \x7d\n        \n        .prose h1 \x7b\n            font-size: 2.25em;\n            font-weight: 700;\n            margin-top: 0;\n            margin-bottom: 0.8888889em;\n            line-height: 1.1111111;\n            color: #111827;\n        \x7d\n        \n        .prose h2 \x7b\n            font-size: 1.5em;\n            font-weight: 600;\n            margin-top: 2em;\n            margin-bottom: 1em;\n            line-height: 1.3333333;\n            color: #111827;\n            padding-bottom: 0.3em;\n            border-bottom: 1px solid #e5e7eb;\n        \x7d\n        \n        .prose h3 \x7b\n            font-size: 1.25em;\n            font-weight: 600;\n            margin-top: 1.6em;\n            margin-bottom: 0.6em;\n            line-height: 1.6;\n            color: #111827;\n        \x7d\n        \n        .prose p \x7b\n            margin-top: 1.25em;\n            margin-bottom: 1.25em;\n            line-height: 1.75;\n        \x7d\n        \n        .prose a \x7b\n            color: #2563eb;\n            text-decoration: underline;\n            font-weight: 500;\n            text-decoration-color: #93c5fd;\n            transition: all 0.2s;\n        \x7d\n        \n        .prose a:hover \x7b\n            color: #1d4ed8;\n            text-decoration-color: #2563eb;\n        \x7d\n        \n        .prose strong \x7b\n            font-weight: 600;\n            color: #111827;\n        \x7d\n        \n        .prose code \x7b\n            font-family: \x27JetBrains Mono\x27, \x27Courier New\x27, monospace;\n            font-size: 0.875em;\n            background: #f3f4f6;\n            color: #dc2626;\n            padding: 0.2em 0.4em;\n            border-radius: 0.375rem;\n            font-weight: 500;\n        \x7d\n        \n        .prose pre \x7b\n            font-family: \x27JetBrains Mono\x27, \x27Courier New\x27, monospace;\n            font-size: 0.875em;\n            line-height: 1.7142857;\n            margin-top: 1.7142857em;\n            margin-bottom: 1.7142857em;\n            border-radius: 0.5rem;\n            padding: 1rem 1.25rem;\n            overflow-x: auto;\n            background: #1f2937;\n            color: #f9fafb;\n            box-shadow: 0 4px 6px -1px rgb(0 0 0 / 0.1);\n        \x7d\n        \n        .prose pre code \x7b\n            background: transparent;\n            color: inherit;\n            padding: 0;\n            font-weight: 400;\n            border-radius: 0;\n        \x7d\n        \n        .prose ul, .prose ol \x7b\n            margin-top: 1.25em;\n            margin-bottom: 1.25em;\n            padding-left: 1.625em;\n        \x7d\n        \n        .prose li \x7b\n            margin-top: 0.5em;\n            margin-bottom: 0.5em;\n            line-height: 1.75;\n        \x7d\n        \n        .prose blockquote \x7b\n            font-style: italic;\n            color: #4b5563;\n            border-left: 4px solid #e5e7eb;\n            padding-left: 1em;\n            margin: 1.6em 0;\n            background: #f9fafb;\n            padding: 1em 1em 1em 1.5em;\n            border-radius: 0 0.375rem 0.375rem 0;\n        \x7d\n        \n        .prose img \x7b\n            max-width: 100%;\n            height: auto;\n            border-radius: 0.5rem;\n            margin-top: 2em;\n            margin-bottom: 2em;\n            box-shadow: 0 10px 15px -3px rgb(0 0 0 / 0.1);\n        \x7d\n        \n        .prose table \x7b\n            width: 100%;\n            border-collapse: collapse;\n            margin-top: 2em;\n            margin-bottom: 2em;\n        \x7d\n        \n        .prose th \x7b\n            background: #f9fafb;\n            font-weight: 600;\n            text-align: left;\n            padding: 0.75em 1em;\n            border-bottom: 2px solid #e5e7eb;\n        \x7d\n        \n        .prose td \x7b\n            padding: 0.75em 1em;\n            border-bottom: 1px solid #e5e7eb;\n        \x7d\n        \n        .prose hr \x7b\n            border: 0;\n            border-top: 1px solid #e5e7eb;\n            margin: 3em 0;\n        \x7d\n        \n        /* Dark mode support */\n        .dark body \x7b\n            background: linear-gradient(to bottom right, #0f172a, #1e293b);\n        \x7d\n        \n        .dark .card \x7b\n            background: #1e293b;\n            border-color: #334155;\n        \x7d\n        \n        .dark .prose \x7b\n            color: #e2e8f0;\n        \x7d\n        \n        .dark .prose h1, .dark .prose h2, .dark .prose h3, .dark .prose strong \x7b\n            color: #f1f5f9;\n        \x7d\n        \n        .dark .prose h2 \x7b\n            border-bottom-color: #334155;\n        \x7d\n        \n        .dark .prose code \x7b\n            background: #334155;\n            color: #fca5a5;\n        \x7d\n        \n        .dark .prose blockquote \x7b\n            color: #cbd5e1;\n            border-left-color: #475569;\n            background: #1e293b;\n        \x7d\n        \n        .dark .prose th \x7b\n            background: #1e293b;\n            border-bottom-color: #475569;\n        \x7d\n        \n        .dark .prose td \x7b\n            border-bottom-color: #334155;\n        \x7d\n        \n        .dark .prose hr \x7b\n            border-top-color: #334155;\n        \x7d\n        \n        /* Loading animation */\n        @keyframes pulse \x7b\n            0%, 100% \x7b opacity: 1; \x7d\n            50% \x7b opacity: 0.5; \x7d\n        \x7d\n        \n        .loading \x7b\n            animation: pulse 2s cubic-bezier(0.4, 0, 0.6, 1) infinite;\n        \x7d\n        \n        /* Theme toggle button */\n        .theme-toggle \x7b\n            position: relative;\n            width: 60px;\n            height: 30px;\n            background: #e5e7eb;\n            border-radius: 15px;\n            cursor: pointer;\n            transition: background 0.3s;\n            flex-shrink: 0;\n        \x7d\n        \n        .dark .theme-toggle \x7b\n            background: #475569;\n        \x7d\n        \n        .theme-toggle-slider \x7b\n            position: absolute;\n            top: 3px;\n            left: 3px;\n            width: 24px;\n            height: 24px;\n            background: white;\n            border-radius: 50%;\n            transition: transform 0.3s;\n            display: flex;\n            align-items: center;\n            justify-content: center;\n            font-size: 12px;\n            box-shadow: 0 2px 4px rgba(0,0,0,0.2);\n        \x7d\n        \n        .dark .theme-toggle-slider \x7b\n            transform: translateX(30px);\n        \x7d\n        \n        .theme-icon \x7b\n            line-height: 1;\n        \x7d\n    </style>\n    <script>\n        // Theme management\n        const html = document.documentElement;\n        const savedTheme = localStorage.getItem(\x27theme\x27) || \x27light\x27;\n        if (savedTheme === \x27dark\x27) \x7b\n            html.classList.add(\x27dark\x27);\n        \x7d\n        \n        function toggleTheme() \x7b\n            html.classList.toggle(\x27dark\x27);\n            const isDark = html.classList.contains(\x27dark\x27);\n            localStorage.setItem(\x27theme\x27, isDark ? \x27dark\x27 : \x27light\x27);\n            \n            // Update icon\n            document.querySelector(\x27.dark-icon\x27).style.display = isDark ? \x27block\x27 : \x27none\x27;\n            document.querySelector(\x27.light-icon\x27).style.display = isDark ? \x27none\x27 : \x27block\x27;\n        \x7d\n        \n        // Set initial icon state\n        window.addEventListener(\x27DOMContentLoaded\x27, () => \x7b\n            const isDark = html.classList.contains(\x27dark\x27);\n            document.querySelector(\x27.dark-icon\x27).style.display = isDark ? \x27block\x27 : \x27none\x27;\n            document.querySelector(\x27.light-icon\x27).style.display = isDark ? \x27none\x27 : \x27block\x27;\n        \x7d);\n        \n        // Check for updates by polling status.json\n        let lastUpdate = null;\n        \n        // Set initial timestamp\n        (async () => \x7b\n            try \x7b\n                const response = await fetch(\x27/status.json\x27, \x7b cache: \x27no-store\x27 \x7d);\n                const data = await response.json();\n                lastUpdate = data.timestamp;\n            \x7d catch (e) \x7b\n                console.log(\x27Initial check failed:\x27, e);\n            \x7d\n        \x7d)();\n        \n        setInterval(async () => \x7b\n            try \x7b\n                const response = await fetch(\x27/status.json\x27, \x7b cache: \x27no-store\x27 \x7d);\n                const data = await response.json();\n                \n                if (lastUpdate !== null && data.timestamp && data.timestamp !== lastUpdate) \x7b\n                    console.log(\x27Update detected, refreshing...\x27);\n                    document.body.style.opacity = \x270.7\x27;\n                    setTimeout(() => window.location.reload(), 200);\n                \x7d\n            \x7d catch (e) \x7b\n                console.log(\x27Check failed:\x27, e);\n            \x7d\n        \x7d, 500);\n    </script>\n</head>\n<body class=\"bg-gradient-to-br from-slate-50 to-slate-100 dark:from-slate-900 dark:to-slate-800 min-h-screen py-8 px-4 transition-colors\">\n    <div class=\"max-w-4xl mx-auto\">\n        <!-- Header Card -->\n        <div class=\"card bg-white dark:bg-slate-800 rounded-xl shadow-lg border border-slate-200 dark:border-slate-700 p-6 mb-6\">\n            <div class=\"flex items-center justify-between\">\n                <div class=\"flex items-center space-x-3\">\n                    <div class=\"w-2 h-2 bg-green-500 rounded-full loading\"></div>\n                    <h1 class=\"text-sm font-medium text-slate-600 dark:text-slate-400\">\n                        Live Preview: <span class=\"text-slate-900 dark:text-slate-100 font-semibold\">"

def tmplC : String :=
  "</span>\n                    </h1>\n                </div>\n                <div class=\"flex items-center space-x-4\">\n                    <div class=\"text-xs text-slate-500 dark:text-slate-500\">\n                        Watching for changes\n                    </div>\n                    <div class=\"theme-toggle\" onclick=\"toggleTheme()\">\n                        <div class=\"theme-toggle-slider\">\n                            <span class=\"dark-icon\" style=\"display: none;\">üåô</span>\n                            <span class=\"light-icon\">‚òÄÔ∏è</span>\n                        </div>\n                    </div>\n                </div>\n            </div>\n        </div>\n        \n        <!-- Content Card -->\n        <article class=\"card bg-white dark:bg-slate-800 rounded-xl shadow-lg border border-slate-200 dark:border-slate-700 p-8 md:p-12 transition-all\">\n            <div class=\"prose prose-slate max-w-none\">\n"

def tmplD : String :=
  "\n            </div>\n        </article>\n        \n        <!-- Footer -->\n        <div class=\"text-center mt-6 text-sm text-slate-500 dark:text-slate-500\">\n            Generated at "

def tmplE : String :=
  " ‚Ä¢ Powered by comrak \n        </div>\n    </div>\n</body>\n</html>"


def OUTPUT_FILE : String := "output.html"

def STATUS_FILE : String := "status.json"

/-- The full page produced by the `format!` template. -/
def pageTemplate (title filename html time_str : String) : String :=
  tmplA ++ title ++ tmplB ++ filename ++ tmplC ++ html ++ tmplD ++ time_str ++ tmplE

/-- The status record text: `format!(r#"{{"timestamp":{}}}"#, timestamp)`. -/
def statusJson (timestamp : Int) : String :=
  "\x7b\"timestamp\":" ++ toString timestamp ++ "\x7d"

/-- `Path::file_name` on a path given by its components: the last
component not equal to `.` if it is a normal component, `None` for an
empty path or a path terminating in `..`. -/
def fileName (comps : List String) : Option String :=
  match (comps.filter (fun c => c ≠ ".")).getLast? with
  | some c => if c = ".." then none else some c
  | none => none

/-- The two artifacts on disk (`None` = file absent; contents otherwise).
They are the only state shared between the Watch Loop and the Serving
Loop. -/
structure FS where
  statusFile : Option String
  outputFile : Option String
deriving DecidableEq

/-- Environment of one `render_markdown` call: the outcome the filesystem
gives `fs::read_to_string(input_path)` (`none` = `Err`), whether each
`fs::write` succeeds, and the values of the two `chrono::Local::now()`
calls (`timestamp_millis()` at line 99, `format("%H:%M:%S")` at
line 107). -/
structure RenderEnv where
  readResult : Option String
  statusWriteOk : Bool
  outputWriteOk : Bool
  timestampMillis : Int
  timeStr : String

inductive RenderErr where
  | readErr
  | statusWriteErr
  | outputWriteErr
deriving DecidableEq

/-- How a `render_markdown` call ends: `Ok(())`, `Err(e)` propagated via
`?`, or a panic from the `file_name().unwrap()` at line 105. -/
inductive RenderOutcome where
  | ok
  | err (e : RenderErr)
  | panicked
deriving DecidableEq

inductive WriteOp where
  | statusW
  | outputW
deriving DecidableEq

structure RenderResult where
  outcome : RenderOutcome
  fs : FS
  writes : List WriteOp

/-- `render_markdown` (src/main.rs lines 95-468), in source order: read
the markdown; convert it (`md2html` stands for
`comrak::markdown_to_html` with default options); take the timestamp and
write `STATUS_FILE`; extract the file name (`unwrap` panics when
`file_name()` is `None`; `to_str()` on a Lean `String` model never fails,
so the `unwrap_or` defaults are unreachable); format the page and write
`OUTPUT_FILE`. A failed `fs::write` is modelled as leaving the file
unchanged. `writes` lists the successful writes in order. -/
def render_markdown (md2html : String → String) (comps : List String)
    (env : RenderEnv) (fs : FS) : RenderResult :=
  match env.readResult with
  | none => { outcome := RenderOutcome.err RenderErr.readErr, fs := fs, writes := [] }
  | some markdown =>
    let html := md2html markdown
    let status := statusJson env.timestampMillis
    match env.statusWriteOk with
    | false => { outcome := RenderOutcome.err RenderErr.statusWriteErr, fs := fs, writes := [] }
    | true =>
      let fs1 : FS := { fs with statusFile := some status }
      match fileName comps with
      | none => { outcome := RenderOutcome.panicked, fs := fs1, writes := [WriteOp.statusW] }
      | some nm =>
        let title := nm
        let filename := nm
        let output := pageTemplate title filename html env.timeStr
        match env.outputWriteOk with
        | false =>
          { outcome := RenderOutcome.err RenderErr.outputWriteErr, fs := fs1,
            writes := [WriteOp.statusW] }
        | true =>
          { outcome := RenderOutcome.ok, fs := { fs1 with outputFile := some output },
            writes := [WriteOp.statusW, WriteOp.outputW] }

/-! ## Watch Loop (the spawned task in `main`, lines 45-65) -/

/-- `notify::event::AccessKind` (payloads of `Open`/`Close` elided:
unused by the program). -/
inductive AccessKind where
  | any
  | read
  | opened
  | closed
  | other
deriving DecidableEq

/-- `notify::event::CreateKind`. -/
inductive CreateKind where
  | any
  | file
  | folder
  | other
deriving DecidableEq

/-- `notify::event::ModifyKind` (payloads `DataChange`, `MetadataKind`,
`RenameMode` elided: unused by the program). `metadata` is a pure
metadata/attribute change. -/
inductive ModifyKind where
  | any
  | data
  | metadata
  | name
  | other
deriving DecidableEq

/-- `notify::event::RemoveKind`. -/
inductive RemoveKind where
  | any
  | file
  | folder
  | other
deriving DecidableEq

/-- `notify::EventKind`. -/
inductive EventKind where
  | any
  | access (k : AccessKind)
  | create (k : CreateKind)
  | modify (k : ModifyKind)
  | remove (k : RemoveKind)
  | other
deriving DecidableEq

/-- The loop's match on `event.kind`:
`EventKind::Modify(_) | EventKind::Create(_)` starts the debounce branch,
every other kind falls to `_ => {}`. -/
def qualifies : EventKind → Bool
  | EventKind.modify _ => true
  | EventKind.create _ => true
  | _ => false

/-- What one received event makes the loop body do. `debounced` = the
100 ms `sleep` ran (the `Modify | Create` branch was taken); `rendered` =
`render_markdown` was invoked; `outcome` = its result when invoked;
`errorLogged` = the `eprintln!("Render error: ...")` ran. -/
structure StepResult where
  debounced : Bool
  rendered : Bool
  outcome : Option RenderOutcome
  errorLogged : Bool
  fs : FS

/-- One iteration of the watch loop for a received event of kind `k`:
after the debounce sleep the loop checks `input_path_clone.exists()`
(`stillExists` is that check's result) and only then renders, logging a
propagated error. -/
def watchStep (md2html : String → String) (comps : List String) (k : EventKind)
    (stillExists : Bool) (env : RenderEnv) (fs : FS) : StepResult :=
  match qualifies k with
  | true =>
    match stillExists with
    | true =>
      let r := render_markdown md2html comps env fs
      { debounced := true, rendered := true, outcome := some r.outcome,
        errorLogged := match r.outcome with | RenderOutcome.err _ => true | _ => false,
        fs := r.fs }
    | false =>
      { debounced := true, rendered := false, outcome := none, errorLogged := false, fs := fs }
  | false =>
    { debounced := false, rendered := false, outcome := none, errorLogged := false, fs := fs }

/-- Run the loop over a queue of already-delivered channel items
(`none` = a `notify` error result, skipped by `if let Ok(event)`;
`recv_timeout` timeouts just continue and are not represented). Returns
the number of `render_markdown` invocations and the final artifacts.
Events that arrive during a debounce sleep stay queued in the `mpsc`
channel and are handled by later iterations. A panic kills the spawned
task, ending the loop. -/
def watchRun (md2html : String → String) (comps : List String) (env : RenderEnv)
    (stillExists : Bool) : List (Option EventKind) → FS → Nat × FS
  | [], fs => (0, fs)
  | item :: rest, fs =>
    match item with
    | none => watchRun md2html comps env stillExists rest fs
    | some k =>
      let s := watchStep md2html comps k stillExists env fs
      match s.outcome with
      | some RenderOutcome.panicked => ((if s.rendered then 1 else 0), s.fs)
      | _ =>
        let r := watchRun md2html comps env stillExists rest s.fs
        ((if s.rendered then 1 else 0) + r.1, r.2)


/-! ## Fixtures and claim-level predicates -/

/-- A render environment in which the read and both writes succeed. -/
def envOk : RenderEnv :=
  { readResult := some "# Hello", statusWriteOk := true, outputWriteOk := true,
    timestampMillis := 1000, timeStr := "10:00:00" }

/-- Same source text as `envOk`, rendered at a later wall-clock time. -/
def envOk2 : RenderEnv :=
  { readResult := some "# Hello", statusWriteOk := true, outputWriteOk := true,
    timestampMillis := 2000, timeStr := "11:00:00" }

/-- A render environment whose `fs::write(OUTPUT_FILE, _)` fails. -/
def envOutFail : RenderEnv :=
  { readResult := some "# Hello", statusWriteOk := true, outputWriteOk := false,
    timestampMillis := 7, timeStr := "10:00:01" }

/-- The render environment a real filesystem gives a path whose
`file_name()` is `None`: such a path (ending in `..`, or empty/root)
names a directory or nothing, so `fs::read_to_string` fails (EISDIR on a
directory — opening succeeds but `read` does not — or ENOENT). -/
def envDirRead : RenderEnv :=
  { readResult := none, statusWriteOk := true, outputWriteOk := true,
    timestampMillis := 111, timeStr := "09:00:00" }

/-- Artifacts before the program ever rendered. -/
def fsEmpty : FS := { statusFile := none, outputFile := none }

/-- Artifacts left by an earlier render (timestamp 5). -/
def fsPrior : FS := { statusFile := some (statusJson 5), outputFile := some "old page" }

/-- The write ordering claim C1 asserts of a render's write trace: no
status write strictly precedes a document write (status after or with
content, never before). -/
def statusNotBeforeOutput (writes : List WriteOp) : Prop :=
  ∀ i j, writes.get? i = some WriteOp.statusW → writes.get? j = some WriteOp.outputW → j ≤ i

/-! ## Helper lemmas -/

/-- Shape of a successful `render_markdown` run: the read and both writes
succeeded, the file name existed, and both artifacts hold exactly this
render's values. -/
theorem render_ok_shape (md2html : String → String) (comps : List String)
    (env : RenderEnv) (fs : FS)
    (h : (render_markdown md2html comps env fs).outcome = RenderOutcome.ok) :
    ∃ md nm, env.readResult = some md ∧ env.statusWriteOk = true ∧
      env.outputWriteOk = true ∧ fileName comps = some nm ∧
      render_markdown md2html comps env fs =
        { outcome := RenderOutcome.ok,
          fs := { statusFile := some (statusJson env.timestampMillis),
                  outputFile := some (pageTemplate nm nm (md2html md) env.timeStr) },
          writes := [WriteOp.statusW, WriteOp.outputW] } := by
  obtain ⟨rr, sw, ow, ts, tstr⟩ := env
  obtain ⟨sf, zf⟩ := fs
  cases rr with
  | none => simp [render_markdown] at h
  | some md =>
    cases sw with
    | false => simp [render_markdown] at h
    | true =>
      cases hfn : fileName comps with
      | none => simp [render_markdown, hfn] at h
      | some nm =>
        cases ow with
        | false => simp [render_markdown, hfn] at h
        | true => exact ⟨md, nm, rfl, rfl, rfl, rfl, by simp [render_markdown, hfn]⟩

/-- Effects of a failed `render_markdown` run on the artifacts: the
document is never touched; the status record is untouched on a read or
status-write error, but already overwritten on a document-write error. -/
theorem render_err_effects (md2html : String → String) (comps : List String)
    (env : RenderEnv) (fs : FS) (e : RenderErr)
    (h : (render_markdown md2html comps env fs).outcome = RenderOutcome.err e) :
    (render_markdown md2html comps env fs).fs.outputFile = fs.outputFile ∧
    (e = RenderErr.readErr → (render_markdown md2html comps env fs).fs = fs) ∧
    (e = RenderErr.statusWriteErr → (render_markdown md2html comps env fs).fs = fs) ∧
    (e = RenderErr.outputWriteErr →
      (render_markdown md2html comps env fs).fs.statusFile =
        some (statusJson env.timestampMillis)) := by
  obtain ⟨rr, sw, ow, ts, tstr⟩ := env
  obtain ⟨sf, zf⟩ := fs
  cases rr with
  | none =>
    refine ⟨rfl, fun _ => rfl, fun _ => rfl, fun he => ?_⟩
    simp [render_markdown] at h
    exact absurd (h.trans he) (by decide)
  | some md =>
    cases sw with
    | false =>
      refine ⟨rfl, fun _ => rfl, fun _ => rfl, fun he => ?_⟩
      simp [render_markdown] at h
      exact absurd (h.trans he) (by decide)
    | true =>
      cases hfn : fileName comps with
      | none => simp [render_markdown, hfn] at h
      | some nm =>
        cases ow with
        | false =>
          refine ⟨?_, fun he => ?_, fun he => ?_, fun _ => ?_⟩ <;>
            simp_all [render_markdown, hfn]
        | true => simp [render_markdown, hfn] at h

/-! ## Claims -/

/-- C1 (counterexample): in a successful render with every filesystem
operation succeeding, `render_markdown` writes the status record strictly
before the rendered document (line 103 before line 465), refuting the
claimed ordering "status after or with content, never before". -/
theorem c1_counterexample :
    (render_markdown (fun s => s) ["README.md"] envOk fsEmpty).outcome = RenderOutcome.ok ∧
    (render_markdown (fun s => s) ["README.md"] envOk fsEmpty).writes =
      [WriteOp.statusW, WriteOp.outputW] ∧
    ¬ statusNotBeforeOutput (render_markdown (fun s => s) ["README.md"] envOk fsEmpty).writes := by
  refine ⟨rfl, rfl, fun hcl => ?_⟩
  have h10 := hcl 0 1 rfl rfl
  exact absurd h10 (by decide)

/-- C1 (amended): in every render operation the Status Record and the
Rendered Document are written by the same `render_markdown` call, and on
every successful call the write trace is exactly status first, then
document — the status write precedes the document write, never follows
it. -/
theorem c1_amended_status_written_first (md2html : String → String) (comps : List String)
    (env : RenderEnv) (fs : FS)
    (h : (render_markdown md2html comps env fs).outcome = RenderOutcome.ok) :
    (render_markdown md2html comps env fs).writes = [WriteOp.statusW, WriteOp.outputW] := by
  obtain ⟨md, nm, _, _, _, _, heq⟩ := render_ok_shape md2html comps env fs h
  rw [heq]

/-- Witness for C1 (amended) at a concrete successful render. -/
theorem c1_amended_witness :
    (render_markdown (fun s => s) ["a.md"] envOk fsPrior).outcome = RenderOutcome.ok ∧
    (render_markdown (fun s => s) ["a.md"] envOk fsPrior).writes =
      [WriteOp.statusW, WriteOp.outputW] :=
  ⟨rfl, c1_amended_status_written_first _ _ _ _ rfl⟩

/-- C2 (counterexample): a render whose document write fails is reported
as an error, yet the Status Record has already been overwritten with the
new timestamp — the artifacts are not both left in their prior state. -/
theorem c2_counterexample :
    (render_markdown (fun s => s) ["a.md"] envOutFail fsPrior).outcome =
      RenderOutcome.err RenderErr.outputWriteErr ∧
    (render_markdown (fun s => s) ["a.md"] envOutFail fsPrior).fs.statusFile ≠
      fsPrior.statusFile := by
  refine ⟨rfl, fun hne => ?_⟩
  have h1 : (render_markdown (fun s => s) ["a.md"] envOutFail fsPrior).fs.statusFile
      = some (statusJson 7) := rfl
  rw [h1] at hne
  exact absurd hne (by decide)

/-- C2 (amended): when a watched-file render fails, the error is logged
to the operator and the Rendered Document is left in its prior state; the
Status Record is also left in its prior state when the failure is a read
error or a status-write error, but when the document write is what fails
the Status Record has already been overwritten with this render's
timestamp. -/
theorem c2_amended_failure_effects (md2html : String → String) (comps : List String)
    (k : EventKind) (env : RenderEnv) (fs : FS) (e : RenderErr)
    (h : (watchStep md2html comps k true env fs).outcome = some (RenderOutcome.err e)) :
    (watchStep md2html comps k true env fs).errorLogged = true ∧
    (watchStep md2html comps k true env fs).fs.outputFile = fs.outputFile ∧
    (e = RenderErr.readErr → (watchStep md2html comps k true env fs).fs = fs) ∧
    (e = RenderErr.statusWriteErr → (watchStep md2html comps k true env fs).fs = fs) ∧
    (e = RenderErr.outputWriteErr →
      (watchStep md2html comps k true env fs).fs.statusFile =
        some (statusJson env.timestampMillis)) := by
  cases hq : qualifies k with
  | false => rw [watchStep, hq] at h; exact absurd h (by simp)
  | true =>
    have hr : (render_markdown md2html comps env fs).outcome = RenderOutcome.err e := by
      rw [watchStep, hq] at h
      exact Option.some.inj h
    obtain ⟨h1, h2, h3, h4⟩ := render_err_effects md2html comps env fs e hr
    have hstep : watchStep md2html comps k true env fs =
        { debounced := true, rendered := true,
          outcome := some (render_markdown md2html comps env fs).outcome,
          errorLogged :=
            match (render_markdown md2html comps env fs).outcome with
            | RenderOutcome.err _ => true
            | _ => false,
          fs := (render_markdown md2html comps env fs).fs } := by
      rw [watchStep, hq]
    refine ⟨?_, ?_, ?_, ?_, ?_⟩
    · rw [hstep]
      show (match (render_markdown md2html comps env fs).outcome with
        | RenderOutcome.err _ => true
        | _ => false) = true
      rw [hr]
    · rw [hstep]; exact h1
    · intro he; rw [hstep]; exact h2 he
    · intro he; rw [hstep]; exact h3 he
    · intro he; rw [hstep]; exact h4 he

/-- Witness for C2 (amended) at a concrete failing document write. -/
theorem c2_amended_witness :
    (watchStep (fun s => s) ["a.md"] (EventKind.modify ModifyKind.data) true envOutFail
        fsPrior).outcome = some (RenderOutcome.err RenderErr.outputWriteErr) ∧
    ((watchStep (fun s => s) ["a.md"] (EventKind.modify ModifyKind.data) true envOutFail
        fsPrior).errorLogged = true ∧
      (watchStep (fun s => s) ["a.md"] (EventKind.modify ModifyKind.data) true envOutFail
        fsPrior).fs.outputFile = fsPrior.outputFile ∧
      (RenderErr.outputWriteErr = RenderErr.readErr →
        (watchStep (fun s => s) ["a.md"] (EventKind.modify ModifyKind.data) true envOutFail
          fsPrior).fs = fsPrior) ∧
      (RenderErr.outputWriteErr = RenderErr.statusWriteErr →
        (watchStep (fun s => s) ["a.md"] (EventKind.modify ModifyKind.data) true envOutFail
          fsPrior).fs = fsPrior) ∧
      (RenderErr.outputWriteErr = RenderErr.outputWriteErr →
        (watchStep (fun s => s) ["a.md"] (EventKind.modify ModifyKind.data) true envOutFail
          fsPrior).fs.statusFile = some (statusJson envOutFail.timestampMillis))) :=
  ⟨rfl, c2_amended_failure_effects _ _ _ _ _ _ rfl⟩

/-- C3 (counterexample): a pure metadata/attribute change arrives as
`EventKind::Modify(ModifyKind::Metadata(_))`, which the loop's
`Modify(_) | Create(_)` arm matches: the loop enters the debouncing
branch and invokes the Renderer instead of ignoring the notification. -/
theorem c3_counterexample :
    qualifies (EventKind.modify ModifyKind.metadata) = true ∧
    (watchStep (fun s => s) ["a.md"] (EventKind.modify ModifyKind.metadata) true envOk
      fsEmpty).debounced = true ∧
    (watchStep (fun s => s) ["a.md"] (EventKind.modify ModifyKind.metadata) true envOk
      fsEmpty).rendered = true :=
  ⟨rfl, rfl, rfl⟩

/-- C3 (amended): every `Modify` notification — including a pure
metadata/attribute change — and every `Create` notification triggers the
Idle→Debouncing transition (and, when the file still exists, a render);
`Access`, `Remove`, `Any` and `Other` notifications are ignored: no
debounce, no render, no log, artifacts untouched. -/
theorem c3_amended_event_classification (md2html : String → String) (comps : List String)
    (ex : Bool) (env : RenderEnv) (fs : FS) :
    (∀ mk : ModifyKind,
      (watchStep md2html comps (EventKind.modify mk) ex env fs).debounced = true) ∧
    (∀ ck : CreateKind,
      (watchStep md2html comps (EventKind.create ck) ex env fs).debounced = true) ∧
    (∀ mk : ModifyKind,
      (watchStep md2html comps (EventKind.modify mk) true env fs).rendered = true) ∧
    (∀ ck : CreateKind,
      (watchStep md2html comps (EventKind.create ck) true env fs).rendered = true) ∧
    (∀ ak : AccessKind, watchStep md2html comps (EventKind.access ak) ex env fs =
      { debounced := false, rendered := false, outcome := none, errorLogged := false,
        fs := fs }) ∧
    (∀ rk : RemoveKind, watchStep md2html comps (EventKind.remove rk) ex env fs =
      { debounced := false, rendered := false, outcome := none, errorLogged := false,
        fs := fs }) ∧
    (watchStep md2html comps EventKind.any ex env fs =
      { debounced := false, rendered := false, outcome := none, errorLogged := false,
        fs := fs }) ∧
    (watchStep md2html comps EventKind.other ex env fs =
      { debounced := false, rendered := false, outcome := none, errorLogged := false,
        fs := fs }) := by
  refine ⟨fun mk => ?_, fun ck => ?_, fun mk => rfl, fun ck => rfl, fun ak => rfl,
    fun rk => rfl, rfl, rfl⟩
  · cases ex <;> rfl
  · cases ex <;> rfl

/-- C4 (code bug): the "debounce" only sleeps before rendering and never
drains the events queued during the sleep, so a burst of two qualifying
changes inside one debounce window produces two renders, one per queued
event — not the single render the spec (and the code's own `Debounce`
comment, read with the spec's definition of debouncing) calls for. -/
theorem c4_burst_renders_twice :
    (watchRun (fun s => s) ["README.md"] envOk true
      [some (EventKind.modify ModifyKind.data), some (EventKind.modify ModifyKind.data)]
      fsEmpty).1 = 2 :=
  rfl

/-- C5 (counterexample): the router carries no CORS layer, so the
response to a `GET` of the status route (and of the document routes)
carries no `Access-Control-Allow-Origin` header: cross-origin access is
not permitted. -/
theorem c5_counterexample :
    ("/status.json", Handler.statusH) ∈ router ∧
    allowsCrossOrigin (routeHeaders Handler.statusH) = false ∧
    allowsCrossOrigin (routeHeaders Handler.htmlH) = false :=
  ⟨by decide, rfl, rfl⟩

/-- C5 (amended): no route of the HTTP server sets an
`Access-Control-Allow-Origin` header — the server permits no cross-origin
access; only a browser page loaded from the server's own origin (which
the embedded polling script is) can fetch the status/document routes. -/
theorem c5_amended_no_cors (p : String) (h : Handler) (hmem : (p, h) ∈ router) :
    allowsCrossOrigin (routeHeaders h) = false := by
  cases h <;> rfl

/-- Witness for C5 (amended) at the root route. -/
theorem c5_amended_witness :
    ("/", Handler.htmlH) ∈ router ∧ allowsCrossOrigin (routeHeaders Handler.htmlH) = false :=
  ⟨by decide, c5_amended_no_cors "/" Handler.htmlH (by decide)⟩

/-- C6 (confirmed): serving never fails a request on a bad artifact — an
unreadable document yields a 200 response with the placeholder body, an
unreadable status file yields the zero-timestamp record, and an
unparseable status file also yields the zero-timestamp record. -/
theorem c6_serving_fallbacks :
    serve_html none = { status := 200, headers := htmlHeaders, body := "Error loading file" } ∧
    serve_status none = { status := 200, headers := jsonHeaders, body := zeroTimestamp } ∧
    (∀ s : String, Json.parse s = none →
      serve_status (some s) = { status := 200, headers := jsonHeaders, body := zeroTimestamp }) := by
  refine ⟨rfl, rfl, fun s hs => ?_⟩
  simp [serve_status, hs]

/-- Witness for C6 at a concrete unparseable status file (e.g. a torn
read). -/
theorem c6_witness :
    Json.parse "mid-overwrite garbage" = none ∧
    serve_status (some "mid-overwrite garbage") =
      { status := 200, headers := jsonHeaders, body := zeroTimestamp } :=
  ⟨rfl, c6_serving_fallbacks.2.2 "mid-overwrite garbage" rfl⟩

/-- C7 (confirmed): when the `input_path_clone.exists()` check after the
debounce sleep is false, the loop skips rendering: `render_markdown` is
not invoked, no error is logged, and both artifacts are unchanged —
whatever kind of event started the cycle. -/
theorem c7_missing_file_skips_render (md2html : String → String) (comps : List String)
    (k : EventKind) (env : RenderEnv) (fs : FS) :
    (watchStep md2html comps k false env fs).rendered = false ∧
    (watchStep md2html comps k false env fs).fs = fs ∧
    (watchStep md2html comps k false env fs).errorLogged = false := by
  cases k <;> exact ⟨rfl, rfl, rfl⟩

/-- C8 (confirmed): rendering is deterministic modulo the embedded
timestamp — two successful renders of identical source contents (the
markdown converter being a fixed pure function) produce documents that
are byte-identical except at the `time_str` slot: both equal a common
`bodyPart` followed by their own timestamp string and the constant
template tail. -/
theorem c8_deterministic_modulo_timestamp (md2html : String → String) (comps : List String)
    (env1 env2 : RenderEnv) (fs1 fs2 : FS)
    (hread : env1.readResult = env2.readResult)
    (h1 : (render_markdown md2html comps env1 fs1).outcome = RenderOutcome.ok)
    (h2 : (render_markdown md2html comps env2 fs2).outcome = RenderOutcome.ok) :
    ∃ bodyPart : String,
      (render_markdown md2html comps env1 fs1).fs.outputFile =
        some (bodyPart ++ env1.timeStr ++ tmplE) ∧
      (render_markdown md2html comps env2 fs2).fs.outputFile =
        some (bodyPart ++ env2.timeStr ++ tmplE) := by
  obtain ⟨md, nm, hr1, _, _, hfn1, heq1⟩ := render_ok_shape md2html comps env1 fs1 h1
  obtain ⟨md2, nm2, hr2, _, _, hfn2, heq2⟩ := render_ok_shape md2html comps env2 fs2 h2
  have hmd : md = md2 := Option.some.inj ((hr1.symm.trans hread).trans hr2)
  have hnm : nm = nm2 := Option.some.inj (hfn1.symm.trans hfn2)
  subst hmd
  subst hnm
  exact ⟨tmplA ++ nm ++ tmplB ++ nm ++ tmplC ++ md2html md ++ tmplD,
    by rw [heq1]; rfl, by rw [heq2]; rfl⟩

/-- Witness for C8: the same source rendered at two different times. -/
theorem c8_witness :
    envOk.readResult = envOk2.readResult ∧
    (render_markdown (fun s => s) ["b.md"] envOk fsEmpty).outcome = RenderOutcome.ok ∧
    (render_markdown (fun s => s) ["b.md"] envOk2 fsEmpty).outcome = RenderOutcome.ok ∧
    ∃ bodyPart : String,
      (render_markdown (fun s => s) ["b.md"] envOk fsEmpty).fs.outputFile =
        some (bodyPart ++ envOk.timeStr ++ tmplE) ∧
      (render_markdown (fun s => s) ["b.md"] envOk2 fsEmpty).fs.outputFile =
        some (bodyPart ++ envOk2.timeStr ++ tmplE) :=
  ⟨rfl, rfl, rfl, c8_deterministic_modulo_timestamp _ _ _ _ _ _ rfl rfl rfl⟩

/-- C9 (confirmed): the zero-timestamp fallback applies only when the
status file is unreadable or not parseable as JSON; any content that
parses — whether or not it has an integer `timestamp` field — is served
back as the parsed value, unchanged. -/
theorem c9_parsed_json_served_unchanged (s : String) (v : Json)
    (h : Json.parse s = some v) :
    serve_status (some s) = { status := 200, headers := jsonHeaders, body := v } := by
  simp [serve_status, h]

/-- Witness for C9: an object with no `timestamp` field, and one whose
`timestamp` is a string, are both served back verbatim. -/
theorem c9_witness :
    Json.parse "\x7b\"note\":\"hi\"\x7d" = some (Json.obj [("note", Json.str "hi")]) ∧
    serve_status (some "\x7b\"note\":\"hi\"\x7d") =
      { status := 200, headers := jsonHeaders, body := Json.obj [("note", Json.str "hi")] } ∧
    Json.parse "\x7b\"timestamp\":\"soon\"\x7d" =
      some (Json.obj [("timestamp", Json.str "soon")]) ∧
    serve_status (some "\x7b\"timestamp\":\"soon\"\x7d") =
      { status := 200, headers := jsonHeaders,
        body := Json.obj [("timestamp", Json.str "soon")] } :=
  ⟨rfl, c9_parsed_json_served_unchanged _ _ rfl, rfl, c9_parsed_json_served_unchanged _ _ rfl⟩

/-- C10 (counterexample): at the claim's own exemplar input — a path
ending in `..`, whose `file_name()` is `None` — the only read outcome a
real filesystem can give (the path names a directory or nothing, so the
line-96 `fs::read_to_string` fails) makes `render_markdown` return the
propagated read error: it does not panic there. -/
theorem c10_counterexample :
    fileName ["notes", ".."] = none ∧
    (render_markdown (fun s => s) ["notes", ".."] envDirRead fsEmpty).outcome =
      RenderOutcome.err RenderErr.readErr ∧
    (render_markdown (fun s => s) ["notes", ".."] envDirRead fsEmpty).outcome ≠
      RenderOutcome.panicked :=
  ⟨rfl, rfl, by decide⟩

/-- C10 (amended): the `file_name().unwrap()` of line 105 would panic if
it were reached with `None`, but it never is on a realizable input: a
path with no final normal component names a directory or nothing, so the
line-96 read fails first (the `hreal` premise) and the error propagates —
`render_markdown` never panics, and the propagated-error contract covers
all existing paths. -/
theorem c10_amended_no_panic (md2html : String → String) (comps : List String)
    (env : RenderEnv) (fs : FS)
    (hreal : fileName comps = none → env.readResult = none) :
    (render_markdown md2html comps env fs).outcome ≠ RenderOutcome.panicked := by
  obtain ⟨rr, sw, ow, ts, tstr⟩ := env
  cases hfn : fileName comps with
  | none =>
    have hrr : rr = none := hreal hfn
    subst hrr
    simp [render_markdown]
  | some nm =>
    cases rr with
    | none => simp [render_markdown]
    | some md =>
      cases sw with
      | false => simp [render_markdown]
      | true =>
        cases ow with
        | false => simp [render_markdown, hfn]
        | true => simp [render_markdown, hfn]

/-- Witness for C10 (amended) at the concrete path `notes/..` with its
realizable (failing) read. -/
theorem c10_amended_witness :
    fileName ["notes", ".."] = none ∧
    (render_markdown (fun s => s) ["notes", ".."] envDirRead fsPrior).outcome ≠
      RenderOutcome.panicked :=
  ⟨rfl, c10_amended_no_panic _ _ _ _ (fun _ => rfl)⟩

end MdView
